import Mathlib

/-!
Verification of the StudyBuddy conversational-agent core
(`conversational_agent.py`, `audio_utils.py`) against its
natural-language specification.

The Python source is shallowly embedded: audio samples are rationals,
the capture callback's mutable state is passed explicitly, and each
fallible external call (filesystem, classifier, collaborator models)
is represented by an explicit outcome parameter.
-/

namespace StudyBuddy

/-- Audio sample rate, fixed in `ConversationalAgent.__init__`
(`self.sample_rate = 16000`). -/
def sample_rate : Nat := 16000

/-- Frame duration in milliseconds, fixed in `__init__`
(`self.frame_duration = 30`). -/
def frame_duration : Nat := 30

/-- Frame size in samples, as computed in `listen`:
`frame_size = int(self.sample_rate * frame_duration_ms / 1000)`. -/
def frameSize (sr durMs : Nat) : Nat := sr * durMs / 1000

/-- Live audio-level metric computed by the capture callback
(`self.current_audio_level = float(np.abs(indata).mean())`): the mean
absolute sample value of the block.  Empty blocks give `0` (division by
zero in `ℚ`). -/
def audioLevel (indata : List ℚ) : ℚ :=
  ((indata.map (fun x => |x|)).sum) / (indata.length : ℚ)

/-- Outcome of one invocation of `self.vad.is_speech(frame_bytes, ...)`
on a frame: the classifier returns true, returns false, raises an
exception whose text contains "file", or raises some other exception. -/
inductive CRes where
  | speech
  | notSpeech
  | errFile
  | errOther
deriving DecidableEq

/-- State mutated by the VAD section of the capture callback:
the module-level flag `WEBRTCVAD_AVAILABLE`, the number of `"INTERRUPT"`
tokens put on `self.audio_queue`, and the number of classifier
invocations performed so far. -/
structure VadSt where
  vadAvailable : Bool
  interrupts : Nat
  calls : Nat
deriving DecidableEq

/-- The inner chunk-popping loop of the callback
(`while total_frames < frame_size and audio_buffer: chunk = audio_buffer.pop(0); ...`).
Returns the popped chunks in order, the remaining buffer, and the
accumulated `total_frames`. -/
def popChunks (fs : Nat) : List (List ℚ) → Nat → List (List ℚ) × List (List ℚ) × Nat
  | [], total => ([], [], total)
  | c :: rest, total =>
    if total < fs then
      let r := popChunks fs rest (total + c.length)
      (c :: r.1, r.2.1, r.2.2)
    else ([], c :: rest, total)

/-- The outer VAD loop of the callback
(`while len(audio_buffer) * frames >= frame_size: ...`), fuelled to make
it a structural recursion; `frames` is the length of the current block
(the `frames` argument of the callback).  On a speech classification the
loop puts `"INTERRUPT"` and `break`s; on an exception whose text contains
"file" it clears `WEBRTCVAD_AVAILABLE` and continues; chunks popped when
fewer than `fs` samples remain are discarded.  `classify` takes the
invocation index so stateful classifier behaviour can be expressed. -/
def vadLoopFuel (classify : Nat → List ℚ → CRes) (frames fs : Nat) :
    Nat → List (List ℚ) → VadSt → List (List ℚ) × VadSt
  | 0, buf, st => (buf, st)
  | fuel + 1, buf, st =>
    if fs ≤ buf.length * frames then
      let p := popChunks fs buf 0
      if fs ≤ p.2.2 then
        match classify st.calls (p.1.flatten.take fs) with
        | CRes.speech =>
          (p.2.1, { st with calls := st.calls + 1, interrupts := st.interrupts + 1 })
        | CRes.notSpeech =>
          vadLoopFuel classify frames fs fuel p.2.1 { st with calls := st.calls + 1 }
        | CRes.errFile =>
          vadLoopFuel classify frames fs fuel p.2.1
            { st with calls := st.calls + 1, vadAvailable := false }
        | CRes.errOther =>
          vadLoopFuel classify frames fs fuel p.2.1 { st with calls := st.calls + 1 }
      else vadLoopFuel classify frames fs fuel p.2.1 st
    else (buf, st)

/-- The VAD loop run with sufficient fuel (each iteration consumes at
least one buffered chunk, so `buf.length` iterations always suffice). -/
def vadLoop (classify : Nat → List ℚ → CRes) (frames fs : Nat)
    (buf : List (List ℚ)) (st : VadSt) : List (List ℚ) × VadSt :=
  vadLoopFuel classify frames fs buf.length buf st

/-- The frames the VAD loop assembles when no classification stops it
early: the same popping/slicing recursion as `vadLoopFuel`, without the
classifier. -/
def assembleFramesFuel (frames fs : Nat) : Nat → List (List ℚ) → List (List ℚ)
  | 0, _ => []
  | fuel + 1, buf =>
    if fs ≤ buf.length * frames then
      let p := popChunks fs buf 0
      if fs ≤ p.2.2 then
        p.1.flatten.take fs :: assembleFramesFuel frames fs fuel p.2.1
      else assembleFramesFuel frames fs fuel p.2.1
    else []

/-- Frame assembly with sufficient fuel. -/
def assembleFrames (frames fs : Nat) (buf : List (List ℚ)) : List (List ℚ) :=
  assembleFramesFuel frames fs buf.length buf

/-- Whether some assembled frame, classified in order starting at
invocation index `c0`, is classified as speech. -/
def speechHit (classify : Nat → List ℚ → CRes) : Nat → List (List ℚ) → Bool
  | _, [] => false
  | c0, f :: rest =>
    (decide (classify c0 f = CRes.speech)) || speechHit classify (c0 + 1) rest

/-- State read and written by the capture callback in `listen`:
the chunk queue `audio_buffer`, the recorded blocks `audio_data`, the
live level `self.current_audio_level`, and the VAD state. -/
structure CbSt where
  buffer : List (List ℚ)
  data : List (List ℚ)
  level : ℚ
  vad : VadSt

/-- One invocation of the capture callback (`conversational_agent.py`
lines 106-146) on block `indata`.  It appends the block to
`audio_buffer` and `audio_data`, recomputes the audio level, and runs
the VAD loop only under the guard
`self.is_speaking and len(audio_buffer) > 0 and self.vad is not None and WEBRTCVAD_AVAILABLE`;
`isSpeaking` models `self.is_speaking` and `vadSome` models
`self.vad is not None`, both as read at callback entry. -/
def callback (isSpeaking vadSome : Bool) (classify : Nat → List ℚ → CRes)
    (fs : Nat) (indata : List ℚ) (st : CbSt) : CbSt :=
  let buffer1 := st.buffer ++ [indata]
  let data1 := st.data ++ [indata]
  let level1 := audioLevel indata
  if isSpeaking && !buffer1.isEmpty && vadSome && st.vad.vadAvailable then
    let r := vadLoop classify indata.length fs buffer1 st.vad
    ⟨r.1, data1, level1, r.2⟩
  else
    ⟨buffer1, data1, level1, st.vad⟩

/-- Outcome of one iteration of the `while True` loop in `run`
(`conversational_agent.py` lines 328-361), as seen by its
`try`/`except` structure.  `listenErr` is an exception raised by
`self.listen` (e.g. input-stream creation failure); `noInput` is
`listen` returning an empty string (which includes its internal error
paths, since `listen` catches its own exceptions and returns `""`);
`success` is a turn that runs generation and speech (both of which
catch their own exceptions and never raise into the loop); `interrupt`
is a `KeyboardInterrupt`. -/
inductive Turn where
  | listenErr
  | noInput
  | success
  | interrupt
deriving DecidableEq

/-- How a finite trace of the `run` loop ends: `stopped` by
`KeyboardInterrupt`, `faulted` with the terminal diagnostic after the
error budget is exhausted, or `outOfInput` when the modelled trace is
exhausted with the loop still running (carrying the current
`error_count`). -/
inductive RunOutcome where
  | stopped
  | faulted (msg : String)
  | outOfInput (errCount : Nat)
deriving DecidableEq

/-- The consecutive-error budget of `run`
(`max_consecutive_errors = 3`). -/
def max_consecutive_errors : Nat := 3

/-- Diagnostic printed by `run` when the budget is exhausted
(`f"Too many consecutive errors ({max_consecutive_errors})."`). -/
def faultDiag (maxErr : Nat) : String :=
  "Too many consecutive errors (" ++ toString maxErr ++ ")."

/-- The `while True` loop of `run` over a finite trace of turn
outcomes, threading `error_count`.  On `listenErr` the `except` branch
runs: `error_count += 1`, and the loop exits with the diagnostic when
`error_count >= max_consecutive_errors`.  On `noInput` and `success`
the statement `error_count = 0` has already run (it executes
immediately after `self.listen` returns, before the empty-input check,
generation and speech). -/
def runLoop (maxErr : Nat) : Nat → List Turn → RunOutcome
  | c, [] => RunOutcome.outOfInput c
  | _, Turn.interrupt :: _ => RunOutcome.stopped
  | c, Turn.listenErr :: ts =>
    if maxErr ≤ c + 1 then RunOutcome.faulted (faultDiag maxErr)
    else runLoop maxErr (c + 1) ts
  | _, Turn.noInput :: ts => runLoop maxErr 0 ts
  | _, Turn.success :: ts => runLoop maxErr 0 ts

/-- Python's `str.strip()` on a character list: remove leading and
trailing whitespace. -/
def stripChars (l : List Char) : List Char :=
  ((l.dropWhile Char.isWhitespace).reverse.dropWhile Char.isWhitespace).reverse

/-- Python's `str.strip()`: remove leading and trailing whitespace. -/
def pyStrip (s : String) : String := String.mk (stripChars s.data)

/-- The two file artifacts the persistence tiers of `listen` can
create: the unique temporary file produced by `save_audio_to_wav`, and
the fixed fallback file `~/Documents/StudyBuddy/recording.wav`. -/
inductive Handle where
  | primary
  | fallback
deriving DecidableEq

/-- Path of an artifact, relative to the containing directory
(temp dir for `primary`, the user's home for `fallback`); `tmpName` is
the unique name chosen by `tempfile.NamedTemporaryFile`. -/
def handlePath (tmpName : String) : Handle → String
  | Handle.primary => tmpName
  | Handle.fallback => "Documents/StudyBuddy/recording.wav"

/-- Filesystem state observed by one `listen` call: whether the
primary temp artifact and the fallback artifact exist. -/
structure FS where
  primaryFile : Bool
  fallbackFile : Bool
deriving DecidableEq

/-- Whether the artifact `h` exists in filesystem state `f`. -/
def handleExists : Handle → FS → Bool
  | Handle.primary, f => f.primaryFile
  | Handle.fallback, f => f.fallbackFile

/-- Remove the artifact `h` from filesystem state `f`. -/
def removeHandle : Handle → FS → FS
  | Handle.primary, f => { f with primaryFile := false }
  | Handle.fallback, f => { f with fallbackFile := false }

/-- Injected outcomes of the external operations performed by the
persistence/transcription phase of `listen`: each `Ok` flag tells
whether the corresponding filesystem call succeeds (false = raises),
and the two transcription fields give `self.speech_model.transcribe`'s
behaviour on the in-memory array and on the file (`Except.error` =
raises). -/
structure PersistEnv where
  primaryCreateOk : Bool
  primaryWriteOk : Bool
  primaryRemoveOk : Bool
  secMakedirsOk : Bool
  secOpenOk : Bool
  secWriteOk : Bool
  memTranscribe : Except String String
  fileTranscribe : Except String String
  finalRemoveOk : Bool

/-- Embeds `save_audio_to_wav` (`audio_utils.py` lines 36-78).
`tempfile.NamedTemporaryFile` creates the temp file (or raises with no
file); the `wave` write either completes or raises, in which case the
`except` branch attempts `os.remove` and swallows any failure of the
removal; the function never raises, returning `(True, path)` or
`(False, message)` modelled as `Except`. -/
def save_audio_to_wav (env : PersistEnv) (fs0 : FS) : Except String Handle × FS :=
  if !env.primaryCreateOk then
    (Except.error "temp file creation failed", fs0)
  else if !env.primaryWriteOk then
    if env.primaryRemoveOk then
      (Except.error "wav write failed", { fs0 with primaryFile := false })
    else
      (Except.error "wav write failed", { fs0 with primaryFile := true })
  else
    (Except.ok Handle.primary, { fs0 with primaryFile := true })

/-- The tertiary path of `listen` (lines 199-209): both file tiers
failed, so the in-memory sample array is transcribed directly.  If that
transcription raises, the outer `except` (line 222) catches it and
`listen` returns `""`.  No `temp_file` is recorded, so the `finally`
block deletes nothing. -/
def transcribeDirect (env : PersistEnv) (fs1 : FS) : String × FS × Option Handle :=
  match env.memTranscribe with
  | Except.ok t => (pyStrip t, fs1, none)
  | Except.error _ => ("", fs1, none)

/-- The file-consuming tail of `listen` (lines 211-240): transcribe
`temp_file`, catching any exception into a `""` result, then in the
`finally` block attempt to delete `temp_file`; a deletion failure is
only printed as a warning and changes neither the result nor raises. -/
def transcribeFileThenCleanup (env : PersistEnv) (h : Handle) (fs1 : FS) :
    String × FS × Option Handle :=
  let res := match env.fileTranscribe with
    | Except.ok t => pyStrip t
    | Except.error _ => ""
  let fs2 := if env.finalRemoveOk then removeHandle h fs1 else fs1
  (res, fs2, some h)

/-- The persistence/transcription phase of `listen`
(`conversational_agent.py` lines 162-240) for a non-empty recording.
Tier order: `save_audio_to_wav`; on its failure the fallback write to
`Documents/StudyBuddy/recording.wav` (`os.makedirs`, `wave.open`,
frame write — `temp_file = alt_temp_file` is assigned only after the
write completes, so a write that raises after `wave.open` created the
file leaves the artifact with no handle recorded); on a raise from the
fallback tier, direct in-memory transcription.  Returns the result
string, the final filesystem state, and the `temp_file` handle the
`finally` block saw. -/
def listenPersist (env : PersistEnv) (fs0 : FS) : String × FS × Option Handle :=
  match save_audio_to_wav env fs0 with
  | (Except.ok h, fs1) => transcribeFileThenCleanup env h fs1
  | (Except.error _, fs1) =>
    if !env.secMakedirsOk then transcribeDirect env fs1
    else if !env.secOpenOk then transcribeDirect env fs1
    else
      let fs2 := { fs1 with fallbackFile := true }
      if !env.secWriteOk then transcribeDirect env fs2
      else transcribeFileThenCleanup env Handle.fallback fs2

/-- The overall result of `listen` as a function of the list of
captured blocks: with no captured audio it returns `""` immediately
(lines 159-161), touching no files; otherwise the persistence phase
runs. -/
def listen (blocks : List (List ℚ)) (env : PersistEnv) (fs0 : FS) : String × FS :=
  if blocks.isEmpty then ("", fs0)
  else ((listenPersist env fs0).1, (listenPersist env fs0).2.1)

/-- Fixed fallback reply of `generate_response`. -/
def fallbackResponse : String := "I'm sorry, I couldn't process that properly."

/-- Behaviour of the three collaborator calls inside
`generate_response`: `self.tokenizer(prompt)`,
`self.text_model.generate(...)` and `self.tokenizer.decode(...)`;
`Except.error` means the call raises. -/
structure GenEnv where
  tokenize : String → Except String (List Nat)
  generate : List Nat → Except String (List Nat)
  decode : List Nat → Except String String

/-- Prompt construction in `generate_response` (lines 246-249):
document content is truncated to 500 characters. -/
def mkPrompt (user_input : String) (document_content : Option String) : String :=
  match document_content with
  | some d =>
    "Document: " ++ (d.take 500) ++ "...\n\nUser: " ++ user_input ++ "\nAssistant:"
  | none => "User: " ++ user_input ++ "\nAssistant:"

/-- Response extraction in `generate_response` (lines 269-273):
if `"Assistant:"` occurs in the decoded text, everything after its
first occurrence, stripped; otherwise the text with the prompt's length
of characters dropped, stripped. -/
def extractResponse (prompt response : String) : String :=
  match response.splitOn "Assistant:" with
  | [] => pyStrip (response.drop prompt.length)
  | [_] => pyStrip (response.drop prompt.length)
  | _ :: rest => pyStrip (String.intercalate "Assistant:" rest)

/-- Embeds `generate_response` (`conversational_agent.py` lines
242-278): the whole body is wrapped in `try`/`except Exception`, whose
handler returns `fallbackResponse`; hence a raise from tokenization,
generation or decoding yields the fallback string and nothing
propagates. -/
def generate_response (env : GenEnv) (user_input : String)
    (document_content : Option String) : String :=
  let prompt := mkPrompt user_input document_content
  match env.tokenize prompt with
  | Except.error _ => fallbackResponse
  | Except.ok toks =>
    match env.generate toks with
    | Except.error _ => fallbackResponse
    | Except.ok out =>
      match env.decode out with
      | Except.error _ => fallbackResponse
      | Except.ok response => extractResponse prompt response

/-! ### Helper lemmas about the frame-assembly loop -/

lemma popChunks_append (fs : Nat) :
    ∀ (buf : List (List ℚ)) (total : Nat),
      (popChunks fs buf total).1 ++ (popChunks fs buf total).2.1 = buf
  | [], _ => rfl
  | c :: rest, total => by
    by_cases h : total < fs
    · simp only [popChunks, if_pos h]
      simpa using popChunks_append fs rest (total + c.length)
    · simp [popChunks, if_neg h]

lemma popChunks_total (fs : Nat) :
    ∀ (buf : List (List ℚ)) (total : Nat),
      (popChunks fs buf total).2.2 = total + (popChunks fs buf total).1.flatten.length
  | [], _ => by simp [popChunks]
  | c :: rest, total => by
    by_cases h : total < fs
    · simp only [popChunks, if_pos h]
      have := popChunks_total fs rest (total + c.length)
      simp only [List.flatten_cons, List.length_append]
      omega
    · simp [popChunks, if_neg h]

lemma popChunks_rest_len (fs : Nat) :
    ∀ (buf : List (List ℚ)) (total : Nat),
      (popChunks fs buf total).2.1.length ≤ buf.length
  | [], _ => by simp [popChunks]
  | c :: rest, total => by
    by_cases h : total < fs
    · simp only [popChunks, if_pos h]
      have := popChunks_rest_len fs rest (total + c.length)
      simpa using Nat.le_succ_of_le this
    · simp [popChunks, if_neg h]

lemma popChunks_rest_lt (fs : Nat) (hfs : 0 < fs) (c : List ℚ) (rest : List (List ℚ)) :
    (popChunks fs (c :: rest) 0).2.1.length < (c :: rest).length := by
  simp only [popChunks, if_pos hfs]
  have := popChunks_rest_len fs rest (0 + c.length)
  simpa using Nat.lt_succ_of_le this

lemma popChunks_small (fs : Nat) :
    ∀ (buf : List (List ℚ)) (total : Nat),
      (popChunks fs buf total).2.2 < fs → (popChunks fs buf total).2.1 = []
  | [], _ => by simp [popChunks]
  | c :: rest, total => by
    by_cases h : total < fs
    · simp only [popChunks, if_pos h]
      exact popChunks_small fs rest (total + c.length)
    · simp only [popChunks, if_neg h]
      intro hlt
      exact absurd hlt (by omega)

lemma vadLoopFuel_nil (classify : Nat → List ℚ → CRes) (frames fs : Nat)
    (hfs : 0 < fs) (fuel : Nat) (st : VadSt) :
    vadLoopFuel classify frames fs fuel [] st = ([], st) := by
  cases fuel with
  | zero => rfl
  | succ n => simp [vadLoopFuel, Nat.not_le.mpr hfs]

lemma assembleFramesFuel_nil (frames fs : Nat) (hfs : 0 < fs) (fuel : Nat) :
    assembleFramesFuel frames fs fuel [] = [] := by
  cases fuel with
  | zero => rfl
  | succ n => simp [assembleFramesFuel, Nat.not_le.mpr hfs]

lemma assembleFramesFuel_succ (frames fs fuel : Nat) (buf : List (List ℚ)) :
    assembleFramesFuel frames fs (fuel + 1) buf =
      if fs ≤ buf.length * frames then
        if fs ≤ (popChunks fs buf 0).2.2 then
          (popChunks fs buf 0).1.flatten.take fs ::
            assembleFramesFuel frames fs fuel (popChunks fs buf 0).2.1
        else assembleFramesFuel frames fs fuel (popChunks fs buf 0).2.1
      else [] := rfl

lemma assembleFramesFuel_spec (frames fs : Nat) (hfs : 0 < fs) :
    ∀ (fuel : Nat) (buf : List (List ℚ)), buf.length ≤ fuel →
      (∀ f ∈ assembleFramesFuel frames fs fuel buf, f.length = fs) ∧
      List.Sublist (assembleFramesFuel frames fs fuel buf).flatten buf.flatten
  | 0, buf, hle => by
    have : buf = [] := List.length_eq_zero.mp (Nat.le_zero.mp hle)
    subst this
    simp [assembleFramesFuel]
  | fuel + 1, buf, hle => by
    rw [assembleFramesFuel_succ]
    by_cases hc : fs ≤ buf.length * frames
    · have hbuf : buf ≠ [] := by
        intro h; subst h; simp at hc; omega
      obtain ⟨c, rest, rfl⟩ := List.exists_cons_of_ne_nil hbuf
      have hlt := popChunks_rest_lt fs hfs c rest
      have hrest : (popChunks fs (c :: rest) 0).2.1.length ≤ fuel := by
        simp only [List.length_cons] at hle hlt; omega
      have ih := assembleFramesFuel_spec frames fs hfs fuel
        (popChunks fs (c :: rest) 0).2.1 hrest
      have hsplit := popChunks_append fs (c :: rest) 0
      have htot := popChunks_total fs (c :: rest) 0
      have hflat : (popChunks fs (c :: rest) 0).1.flatten ++
          (popChunks fs (c :: rest) 0).2.1.flatten = (c :: rest).flatten := by
        rw [← List.flatten_append, hsplit]
      by_cases ht : fs ≤ (popChunks fs (c :: rest) 0).2.2
      · rw [if_pos hc, if_pos ht]
        constructor
        · intro f hf
          rcases List.mem_cons.mp hf with rfl | hf
          · have hlen : fs ≤ (popChunks fs (c :: rest) 0).1.flatten.length := by omega
            rw [List.length_take]
            exact Nat.min_eq_left hlen
          · exact ih.1 f hf
        · rw [List.flatten_cons, ← hflat]
          exact List.Sublist.append (List.take_sublist fs _) ih.2
      · rw [if_pos hc, if_neg ht]
        refine ⟨ih.1, ?_⟩
        rw [← hflat]
        have h0 : (assembleFramesFuel frames fs fuel (popChunks fs (c :: rest) 0).2.1).flatten =
            [] ++ (assembleFramesFuel frames fs fuel (popChunks fs (c :: rest) 0).2.1).flatten := rfl
        rw [h0]
        exact List.Sublist.append (List.nil_sublist _) ih.2
    · rw [if_neg hc]
      simp

lemma vadLoopFuel_succ (classify : Nat → List ℚ → CRes) (frames fs fuel : Nat)
    (buf : List (List ℚ)) (st : VadSt) :
    vadLoopFuel classify frames fs (fuel + 1) buf st =
      if fs ≤ buf.length * frames then
        if fs ≤ (popChunks fs buf 0).2.2 then
          match classify st.calls ((popChunks fs buf 0).1.flatten.take fs) with
          | CRes.speech =>
            ((popChunks fs buf 0).2.1,
              { st with calls := st.calls + 1, interrupts := st.interrupts + 1 })
          | CRes.notSpeech =>
            vadLoopFuel classify frames fs fuel (popChunks fs buf 0).2.1
              { st with calls := st.calls + 1 }
          | CRes.errFile =>
            vadLoopFuel classify frames fs fuel (popChunks fs buf 0).2.1
              { st with calls := st.calls + 1, vadAvailable := false }
          | CRes.errOther =>
            vadLoopFuel classify frames fs fuel (popChunks fs buf 0).2.1
              { st with calls := st.calls + 1 }
        else vadLoopFuel classify frames fs fuel (popChunks fs buf 0).2.1 st
      else (buf, st) := rfl

lemma vadLoopFuel_interrupts (classify : Nat → List ℚ → CRes) (frames fs : Nat)
    (hfs : 0 < fs) :
    ∀ (fuel : Nat) (buf : List (List ℚ)) (st : VadSt), buf.length ≤ fuel →
      (vadLoopFuel classify frames fs fuel buf st).2.interrupts
        = st.interrupts +
          (if speechHit classify st.calls (assembleFramesFuel frames fs fuel buf) = true
           then 1 else 0)
  | 0, buf, st, hle => by
    have : buf = [] := List.length_eq_zero.mp (Nat.le_zero.mp hle)
    subst this
    simp [vadLoopFuel, assembleFramesFuel, speechHit]
  | fuel + 1, buf, st, hle => by
    rw [vadLoopFuel_succ, assembleFramesFuel_succ]
    by_cases hc : fs ≤ buf.length * frames
    · have hbuf : buf ≠ [] := by
        intro h; subst h; simp at hc; omega
      obtain ⟨c, rest, rfl⟩ := List.exists_cons_of_ne_nil hbuf
      have hlt := popChunks_rest_lt fs hfs c rest
      have hrest : (popChunks fs (c :: rest) 0).2.1.length ≤ fuel := by
        simp only [List.length_cons] at hle hlt; omega
      by_cases ht : fs ≤ (popChunks fs (c :: rest) 0).2.2
      · rw [if_pos hc, if_pos ht, if_pos hc, if_pos ht]
        rcases hcl : classify st.calls ((popChunks fs (c :: rest) 0).1.flatten.take fs) with _ | _ | _ | _
        · simp [speechHit, hcl]
        · have ih := vadLoopFuel_interrupts classify frames fs hfs fuel
            (popChunks fs (c :: rest) 0).2.1 { st with calls := st.calls + 1 } hrest
          simp only [hcl, ih, speechHit, hcl]
          simp [hcl]
        · have ih := vadLoopFuel_interrupts classify frames fs hfs fuel
            (popChunks fs (c :: rest) 0).2.1
            { st with calls := st.calls + 1, vadAvailable := false } hrest
          simp only [hcl, ih, speechHit, hcl]
          simp [hcl]
        · have ih := vadLoopFuel_interrupts classify frames fs hfs fuel
            (popChunks fs (c :: rest) 0).2.1 { st with calls := st.calls + 1 } hrest
          simp only [hcl, ih, speechHit, hcl]
          simp [hcl]
      · rw [if_pos hc, if_neg ht, if_pos hc, if_neg ht]
        have hnil : (popChunks fs (c :: rest) 0).2.1 = [] :=
          popChunks_small fs (c :: rest) 0 (Nat.lt_of_not_le ht)
        rw [hnil, vadLoopFuel_nil classify frames fs hfs,
          assembleFramesFuel_nil frames fs hfs]
        simp [speechHit]
    · rw [if_neg hc, if_neg hc]
      simp [speechHit]

lemma vadLoopFuel_avail_mono (classify : Nat → List ℚ → CRes) (frames fs : Nat) :
    ∀ (fuel : Nat) (buf : List (List ℚ)) (st : VadSt),
      (vadLoopFuel classify frames fs fuel buf st).2.vadAvailable = true →
      st.vadAvailable = true
  | 0, buf, st => fun h => h
  | fuel + 1, buf, st => by
    rw [vadLoopFuel_succ]
    by_cases hc : fs ≤ buf.length * frames
    · rw [if_pos hc]
      by_cases ht : fs ≤ (popChunks fs buf 0).2.2
      · rw [if_pos ht]
        rcases hcl : classify st.calls ((popChunks fs buf 0).1.flatten.take fs) with _ | _ | _ | _
        · simp
        · show (vadLoopFuel classify frames fs fuel (popChunks fs buf 0).2.1
              { st with calls := st.calls + 1 }).2.vadAvailable = true →
            st.vadAvailable = true
          intro h
          exact vadLoopFuel_avail_mono classify frames fs fuel (popChunks fs buf 0).2.1
            { st with calls := st.calls + 1 } h
        · show (vadLoopFuel classify frames fs fuel (popChunks fs buf 0).2.1
              { st with calls := st.calls + 1, vadAvailable := false }).2.vadAvailable = true →
            st.vadAvailable = true
          intro h
          have hmono := vadLoopFuel_avail_mono classify frames fs fuel (popChunks fs buf 0).2.1
            { st with calls := st.calls + 1, vadAvailable := false } h
          simp at hmono
        · show (vadLoopFuel classify frames fs fuel (popChunks fs buf 0).2.1
              { st with calls := st.calls + 1 }).2.vadAvailable = true →
            st.vadAvailable = true
          intro h
          exact vadLoopFuel_avail_mono classify frames fs fuel (popChunks fs buf 0).2.1
            { st with calls := st.calls + 1 } h
      · rw [if_neg ht]
        exact vadLoopFuel_avail_mono classify frames fs fuel _ _
    · rw [if_neg hc]
      exact fun h => h

lemma callback_vad (isSpeaking vadSome : Bool) (classify : Nat → List ℚ → CRes)
    (fs : Nat) (indata : List ℚ) (st : CbSt) :
    (callback isSpeaking vadSome classify fs indata st).vad =
      if isSpeaking && !(st.buffer ++ [indata]).isEmpty && vadSome &&
          st.vad.vadAvailable
      then (vadLoop classify indata.length fs (st.buffer ++ [indata]) st.vad).2
      else st.vad := by
  simp only [callback]
  split <;> rfl

lemma callback_buffer (isSpeaking vadSome : Bool) (classify : Nat → List ℚ → CRes)
    (fs : Nat) (indata : List ℚ) (st : CbSt) :
    (callback isSpeaking vadSome classify fs indata st).buffer =
      if isSpeaking && !(st.buffer ++ [indata]).isEmpty && vadSome &&
          st.vad.vadAvailable
      then (vadLoop classify indata.length fs (st.buffer ++ [indata]) st.vad).1
      else st.buffer ++ [indata] := by
  simp only [callback]
  split <;> rfl

lemma callback_level (isSpeaking vadSome : Bool) (classify : Nat → List ℚ → CRes)
    (fs : Nat) (indata : List ℚ) (st : CbSt) :
    (callback isSpeaking vadSome classify fs indata st).level = audioLevel indata := by
  simp only [callback]
  split <;> rfl

/-! ### Claim theorems: frame assembly and interrupt detection -/

set_option maxRecDepth 8000

/-- C1, counterexample.  With two buffered 300-sample blocks (current
block length 300), the assembly pass consumes all 600 buffered samples,
emits a single 480-sample frame, and leaves the queue empty: the 120
surplus samples are discarded, not pushed back to the front of the
queue, so samples are dropped, contrary to the claim. -/
theorem frame_surplus_discarded :
    (callback true true (fun _ _ => CRes.notSpeech)
        (frameSize sample_rate frame_duration) (List.replicate 300 (0 : ℚ))
        ⟨[List.replicate 300 (0 : ℚ)], [List.replicate 300 (0 : ℚ)], 0,
          ⟨true, 0, 0⟩⟩).buffer = [] ∧
    (assembleFrames 300 (frameSize sample_rate frame_duration)
        [List.replicate 300 (0 : ℚ), List.replicate 300 (0 : ℚ)]).flatten.length = 480 ∧
    ([List.replicate 300 (0 : ℚ), List.replicate 300 (0 : ℚ)] :
        List (List ℚ)).flatten.length = 600 := by
  refine ⟨?_, ?_, ?_⟩ <;> decide

/-- C1, amended.  The frame-assembly loop emits only frames of exactly
the configured frame size and preserves sample order without
duplication (the emitted samples form a subsequence of the buffered
samples), but surplus samples beyond each frame boundary are discarded
rather than pushed back, so samples can be dropped. -/
theorem frames_exact_and_ordered (frames fs : Nat) (hfs : 0 < fs)
    (buf : List (List ℚ)) :
    (∀ f ∈ assembleFrames frames fs buf, f.length = fs) ∧
    List.Sublist (assembleFrames frames fs buf).flatten buf.flatten :=
  assembleFramesFuel_spec frames fs hfs buf.length buf (Nat.le_refl _)

/-- Witness for `frames_exact_and_ordered` at a concrete input. -/
theorem frames_exact_and_ordered_witness :
    List.Sublist (assembleFrames 300 (frameSize sample_rate frame_duration)
        [List.replicate 300 (0 : ℚ), List.replicate 300 (0 : ℚ)]).flatten
      ([List.replicate 300 (0 : ℚ), List.replicate 300 (0 : ℚ)] :
        List (List ℚ)).flatten :=
  (frames_exact_and_ordered 300 (frameSize sample_rate frame_duration)
    (by norm_num [frameSize, sample_rate, frame_duration])
    [List.replicate 300 (0 : ℚ), List.replicate 300 (0 : ℚ)]).2

/-- C2.  The capture callback posts an `"INTERRUPT"` token if and only
if, at callback entry, the system is speaking, the classifier object
exists, the availability flag is set, and some frame assembled during
the pass is classified as speech. -/
theorem interrupt_iff_speech (isSpeaking vadSome : Bool)
    (classify : Nat → List ℚ → CRes) (indata : List ℚ) (st : CbSt) :
    st.vad.interrupts <
        (callback isSpeaking vadSome classify
          (frameSize sample_rate frame_duration) indata st).vad.interrupts
      ↔ (isSpeaking = true ∧ vadSome = true ∧ st.vad.vadAvailable = true ∧
          speechHit classify st.vad.calls
            (assembleFrames indata.length (frameSize sample_rate frame_duration)
              (st.buffer ++ [indata])) = true) := by
  have hfs : 0 < frameSize sample_rate frame_duration := by
    norm_num [frameSize, sample_rate, frame_duration]
  have hne : ((st.buffer ++ [indata]).isEmpty : Bool) = false := by simp
  rw [callback_vad]
  by_cases hg : (isSpeaking && !(st.buffer ++ [indata]).isEmpty && vadSome &&
      st.vad.vadAvailable) = true
  · obtain ⟨⟨⟨h1, _⟩, h3⟩, h4⟩ :
        ((isSpeaking = true ∧ (!(st.buffer ++ [indata]).isEmpty) = true) ∧
          vadSome = true) ∧ st.vad.vadAvailable = true := by
      simpa [Bool.and_eq_true] using hg
    rw [if_pos hg, vadLoop, vadLoopFuel_interrupts classify indata.length
      (frameSize sample_rate frame_duration) hfs (st.buffer ++ [indata]).length
      (st.buffer ++ [indata]) st.vad (Nat.le_refl _)]
    simp only [assembleFrames]
    by_cases hs : speechHit classify st.vad.calls
        (assembleFramesFuel indata.length (frameSize sample_rate frame_duration)
          (st.buffer ++ [indata]).length (st.buffer ++ [indata])) = true
    · rw [if_pos hs]
      simp only [h1, h3, h4, hs, true_and, iff_true]
      omega
    · rw [if_neg hs]
      simp only [Nat.add_zero]
      exact iff_of_false (Nat.lt_irrefl _) (fun hcon => hs hcon.2.2.2)
  · rw [if_neg hg]
    refine iff_of_false (Nat.lt_irrefl _) ?_
    rintro ⟨h1, h3, h4, _⟩
    exact hg (by simp [h1, h3, h4, hne])

/-- C7, counterexample.  With four frames' worth of buffered 480-sample
chunks and a classifier that always raises a file-related error, the
availability flag is cleared on the first error, yet the loop continues
and the classifier is invoked four times in the same pass: after
disabling, the classifier is invoked again, contrary to the claim's
"never invoked again". -/
theorem vad_called_after_disable :
    (callback true true (fun _ _ => CRes.errFile)
        (frameSize sample_rate frame_duration) (List.replicate 480 (0 : ℚ))
        ⟨List.replicate 3 (List.replicate 480 (0 : ℚ)), [], 0,
          ⟨true, 0, 0⟩⟩).vad.vadAvailable = false ∧
    (callback true true (fun _ _ => CRes.errFile)
        (frameSize sample_rate frame_duration) (List.replicate 480 (0 : ℚ))
        ⟨List.replicate 3 (List.replicate 480 (0 : ℚ)), [], 0,
          ⟨true, 0, 0⟩⟩).vad.calls = 4 := by
  constructor <;> decide

/-- C7, amended.  A single file-related classifier error permanently
disables the classifier: (i) once the availability flag is clear, a
callback invocation leaves the whole VAD state untouched (no classifier
invocation, no interrupt, frames treated as non-speech); (ii) the flag
is never re-set by the callback; (iii) a file-related error on the
first assembled frame clears the flag.  Within the disabling pass,
remaining buffered frames may still invoke the classifier (see the
counterexample). -/
theorem vad_disable_behaviour (isSpeaking vadSome : Bool)
    (classify : Nat → List ℚ → CRes) (fs : Nat) (indata : List ℚ) (st : CbSt) :
    (st.vad.vadAvailable = false →
      (callback isSpeaking vadSome classify fs indata st).vad = st.vad) ∧
    ((callback isSpeaking vadSome classify fs indata st).vad.vadAvailable = true →
      st.vad.vadAvailable = true) ∧
    (st.buffer = [] → indata.length = fs → 0 < fs →
      classify st.vad.calls indata = CRes.errFile →
      isSpeaking = true → vadSome = true → st.vad.vadAvailable = true →
      (callback isSpeaking vadSome classify fs indata st).vad.vadAvailable = false) := by
  refine ⟨?_, ?_, ?_⟩
  · intro h
    rw [callback_vad, if_neg]
    simp [h]
  · rw [callback_vad]
    by_cases hg : (isSpeaking && !(st.buffer ++ [indata]).isEmpty && vadSome &&
        st.vad.vadAvailable) = true
    · rw [if_pos hg]
      exact fun h => vadLoopFuel_avail_mono classify indata.length fs _ _ _ h
    · rw [if_neg hg]
      exact fun h => h
  · intro hbuf hlen hfs hcl hsp hvs hav
    subst hsp hvs
    have hg : (true && !(st.buffer ++ [indata]).isEmpty && true &&
        st.vad.vadAvailable) = true := by
      simp [hav]
    rw [callback_vad, if_pos hg, hbuf, List.nil_append, vadLoop]
    have hone : ([indata] : List (List ℚ)).length = 0 + 1 := rfl
    rw [hone, vadLoopFuel_succ]
    have hc : fs ≤ ([indata] : List (List ℚ)).length * indata.length := by
      simp [hlen]
    rw [if_pos hc]
    have hpop : popChunks fs [indata] 0 = ([indata], [], 0 + indata.length) := by
      simp [popChunks, hfs]
    rw [hpop]
    have ht : fs ≤ (([indata], ([] : List (List ℚ)), 0 + indata.length)).2.2 := by
      simp [hlen]
    rw [if_pos ht]
    have htake : ((([indata] : List (List ℚ)), ([] : List (List ℚ)),
        0 + indata.length)).1.flatten.take fs = indata := by
      simp [← hlen]
    rw [htake, hcl]
    rfl

/-- Witness for `vad_disable_behaviour` at concrete inputs: a disabled
classifier stays untouched, and a first-frame file error disables. -/
theorem vad_disable_behaviour_witness :
    (callback true true (fun _ _ => CRes.notSpeech) 480 [(0 : ℚ)]
        ⟨[], [], 0, ⟨false, 0, 0⟩⟩).vad = ⟨false, 0, 0⟩ ∧
    (callback true true (fun _ _ => CRes.errFile) 2 [(0 : ℚ), 0]
        ⟨[], [], 0, ⟨true, 0, 0⟩⟩).vad.vadAvailable = false := by
  constructor
  · exact (vad_disable_behaviour true true (fun _ _ => CRes.notSpeech) 480 [(0 : ℚ)]
      ⟨[], [], 0, ⟨false, 0, 0⟩⟩).1 rfl
  · exact (vad_disable_behaviour true true (fun _ _ => CRes.errFile) 2 [(0 : ℚ), 0]
      ⟨[], [], 0, ⟨true, 0, 0⟩⟩).2.2 rfl rfl (by norm_num) rfl rfl rfl rfl

/-! ### Claim theorems: conversation loop and error budget -/

/-- C3.  Starting from any error count, three consecutive turn failures
reach the Faulted outcome with the terminal diagnostic, independent of
whatever the trace holds afterwards (no further turns are issued);
and two consecutive failures from a reset state do not fault, so the
budget is exhausted after exactly `max_consecutive_errors = 3`
consecutive failures. -/
theorem budget_faults_after_three (c : Nat) (ts : List Turn) :
    runLoop max_consecutive_errors c
        (Turn.listenErr :: Turn.listenErr :: Turn.listenErr :: ts)
      = RunOutcome.faulted (faultDiag max_consecutive_errors) ∧
    runLoop max_consecutive_errors 0 [Turn.listenErr, Turn.listenErr]
      = RunOutcome.outOfInput 2 := by
  constructor
  · simp only [runLoop, max_consecutive_errors]
    split_ifs with h1 h2 h3 <;> first | rfl | omega
  · rfl

/-- C4, counterexample.  With the error count at 2, a turn in which
`listen` returns an empty string — not a fully successful turn, and
possibly an internal-error turn, since `listen` returns `""` when
transcription fails — still resets the counter to 0, contrary to the
claim that the counter is reset exactly on a fully successful turn. -/
theorem reset_on_no_input :
    runLoop max_consecutive_errors 2 [Turn.noInput] = RunOutcome.outOfInput 0 := rfl

/-- C4, amended.  The consecutive-error counter is reset to zero as
soon as `listen` returns without raising — on fully successful turns
and equally on no-input turns, before generation and speech run — while
a turn in which `listen` raises increments it without resetting. -/
theorem error_count_reset_semantics (maxErr c : Nat) (ts : List Turn) :
    runLoop maxErr c (Turn.noInput :: ts) = runLoop maxErr 0 ts ∧
    runLoop maxErr c (Turn.success :: ts) = runLoop maxErr 0 ts ∧
    (c + 1 < maxErr →
      runLoop maxErr c (Turn.listenErr :: ts) = runLoop maxErr (c + 1) ts) := by
  refine ⟨rfl, rfl, fun h => ?_⟩
  simp only [runLoop]
  rw [if_neg (by omega)]

/-- Witness for `error_count_reset_semantics` at concrete inputs. -/
theorem error_count_reset_semantics_witness :
    runLoop 3 2 [Turn.noInput] = runLoop 3 0 [] ∧
    runLoop 3 2 [Turn.success] = runLoop 3 0 [] ∧
    runLoop 3 0 [Turn.listenErr] = runLoop 3 1 [] := by
  have h := error_count_reset_semantics 3 2 []
  have h0 := error_count_reset_semantics 3 0 []
  exact ⟨h.1, h.2.1, h0.2.2 (by omega)⟩

/-! ### Claim theorems: audio level -/

/-- C8, counterexample.  A block containing the out-of-range sample `2`
gives an audio level of `2`, outside `[0, 1]`: the callback computes a
plain mean of absolute values and never clamps it. -/
theorem audio_level_unclamped :
    (callback false false (fun _ _ => CRes.notSpeech)
        (frameSize sample_rate frame_duration) [(2 : ℚ)]
        ⟨[], [], 0, ⟨true, 0, 0⟩⟩).level = 2 ∧
    ¬((callback false false (fun _ _ => CRes.notSpeech)
        (frameSize sample_rate frame_duration) [(2 : ℚ)]
        ⟨[], [], 0, ⟨true, 0, 0⟩⟩).level ≤ 1) := by
  constructor
  · rw [callback_level]
    norm_num [audioLevel]
  · rw [callback_level]
    norm_num [audioLevel]

/-- C8, amended.  Whenever every sample of the delivered block lies in
`[-1, 1]` — as the capture device guarantees — the audio level exposed
by the callback lies in `[0, 1]`; the level is not clamped, so
out-of-range synthetic input can exceed 1 (see the counterexample). -/
theorem audio_level_bounded (isSpeaking vadSome : Bool)
    (classify : Nat → List ℚ → CRes) (fs : Nat) (indata : List ℚ) (st : CbSt)
    (hin : ∀ x ∈ indata, |x| ≤ 1) :
    0 ≤ (callback isSpeaking vadSome classify fs indata st).level ∧
    (callback isSpeaking vadSome classify fs indata st).level ≤ 1 := by
  rw [callback_level]
  have hnonneg : (0 : ℚ) ≤ (indata.map (fun x => |x|)).sum :=
    List.sum_nonneg (by
      intro x hx
      obtain ⟨y, _, rfl⟩ := List.mem_map.mp hx
      exact abs_nonneg y)
  have hsum : (indata.map (fun x => |x|)).sum ≤ (indata.length : ℚ) := by
    have hb := List.sum_le_card_nsmul (indata.map (fun x => |x|)) 1 (by
      intro x hx
      obtain ⟨y, hy, rfl⟩ := List.mem_map.mp hx
      exact hin y hy)
    simpa using hb
  rcases indata with _ | ⟨a, l⟩
  · simp [audioLevel]
  · have hlen : (0 : ℚ) < ((a :: l).length : ℚ) := by
      simp only [List.length_cons]
      positivity
    constructor
    · exact div_nonneg hnonneg (le_of_lt hlen)
    · rw [audioLevel, div_le_one hlen]
      exact hsum

/-- Witness for `audio_level_bounded` at a concrete input. -/
theorem audio_level_bounded_witness :
    0 ≤ (callback false false (fun _ _ => CRes.notSpeech) 480 [(1 : ℚ) / 2]
        ⟨[], [], 0, ⟨true, 0, 0⟩⟩).level ∧
    (callback false false (fun _ _ => CRes.notSpeech) 480 [(1 : ℚ) / 2]
        ⟨[], [], 0, ⟨true, 0, 0⟩⟩).level ≤ 1 :=
  audio_level_bounded false false (fun _ _ => CRes.notSpeech) 480 [(1 : ℚ) / 2]
    ⟨[], [], 0, ⟨true, 0, 0⟩⟩ (by
      intro x hx
      rw [List.mem_singleton] at hx
      subst hx
      rw [abs_le]
      norm_num)

/-! ### Claim theorems: tiered persistence and cleanup -/

/-- Injected environment in which the primary tier fails to create its
temp file, the fallback tier creates `recording.wav` but raises during
the frame write, and the in-memory transcription succeeds. -/
def envSecWriteRaises : PersistEnv :=
  ⟨false, true, true, true, true, false, Except.ok "hello", Except.error "boom", true⟩

/-- Same scenario with a different in-memory transcription result. -/
def envSecWriteRaisesMem : PersistEnv :=
  ⟨false, true, true, true, true, false, Except.ok "mem", Except.ok "file", true⟩

/-- Environment in which the primary tier fully succeeds. -/
def envPrimaryOk : PersistEnv :=
  ⟨true, true, true, true, true, true, Except.ok "m", Except.ok "ok", true⟩

/-- Environment in which the primary tier fails and the fallback tier
fully succeeds. -/
def envFallbackOk : PersistEnv :=
  ⟨false, true, true, true, true, true, Except.ok "m", Except.ok "ok", true⟩

/-- C5, counterexample.  When the fallback tier raises after
`wave.open` has created `recording.wav`, the artifact exists after the
call and is never deleted — `temp_file` was never assigned, so the
`finally` block attempts no removal, even though removal would have
succeeded (`finalRemoveOk = true`).  A file artifact created by a
persistence tier is therefore not deleted, contrary to the claim. -/
theorem artifact_not_deleted :
    (listenPersist envSecWriteRaises ⟨false, false⟩).2.1.fallbackFile = true ∧
    envSecWriteRaises.finalRemoveOk = true ∧
    (listenPersist envSecWriteRaises ⟨false, false⟩).2.2 = none := by
  refine ⟨?_, ?_, ?_⟩ <;> decide

/-- C5, amended.  Any file artifact recorded in `temp_file` (i.e. whose
tier completed) is deleted by the `finally` block after transcription,
on the success path and on every error path, whenever the deletion
itself succeeds; a deletion failure is only logged and never changes
the returned result, which is determined by the file-transcription
outcome alone.  A file created by a tier that subsequently raised may
however be left behind (see the counterexample). -/
theorem artifact_cleanup (env : PersistEnv) (fs0 : FS) (h : Handle)
    (hh : (listenPersist env fs0).2.2 = some h) :
    (env.finalRemoveOk = true →
      handleExists h (listenPersist env fs0).2.1 = false) ∧
    (listenPersist env fs0).1
      = (match env.fileTranscribe with
          | Except.ok t => pyStrip t
          | Except.error _ => "") := by
  obtain ⟨pc, pw, pr, sm, so, sw, mt, ft, fr⟩ := env
  cases h <;> cases pc <;> cases pw <;> cases pr <;> cases sm <;> cases so <;>
    cases sw <;> cases fr <;> cases mt <;> cases ft <;>
      simp_all [listenPersist, save_audio_to_wav, transcribeFileThenCleanup,
        transcribeDirect, handleExists, removeHandle]

/-- Witness for `artifact_cleanup` at a concrete input. -/
theorem artifact_cleanup_witness :
    handleExists Handle.primary (listenPersist envPrimaryOk ⟨false, false⟩).2.1
        = false ∧
    (listenPersist envPrimaryOk ⟨false, false⟩).1
      = (match envPrimaryOk.fileTranscribe with
          | Except.ok t => pyStrip t
          | Except.error _ => "") := by
  have hth := artifact_cleanup envPrimaryOk ⟨false, false⟩ Handle.primary (by decide)
  exact ⟨hth.1 rfl, hth.2⟩

/-- C6, counterexample.  With the primary tier failing and the fallback
tier raising during its frame write, the in-memory array is handed
directly to transcription (result `"mem"`), but a file *was* created:
`recording.wav` exists afterwards, contrary to the claim's "with no
file created". -/
theorem fallback_artifact_left :
    (listenPersist envSecWriteRaisesMem ⟨false, false⟩).1 = "mem" ∧
    (listenPersist envSecWriteRaisesMem ⟨false, false⟩).2.1.fallbackFile = true ∧
    (listenPersist envSecWriteRaisesMem ⟨false, false⟩).2.2 = none := by
  refine ⟨?_, ?_, ?_⟩ <;> decide

/-- C6, amended.  Tiers are tried in strict order: when the primary
tier succeeds, the handle is the temp file and the fallback location is
untouched; when the primary tier fails (by returning an error — it
never raises) and the fallback tier completes, the handle is the fixed
artifact `Documents/StudyBuddy/recording.wav`; when the fallback tier
also fails by raising, no handle is recorded and the in-memory array is
handed directly to transcription — though a partial fallback file may
have been created if the raise happened after `wave.open` (see the
counterexample). -/
theorem tier_order (env : PersistEnv) (fs0 : FS) :
    (env.primaryCreateOk = true → env.primaryWriteOk = true →
      (listenPersist env fs0).2.2 = some Handle.primary ∧
      (listenPersist env fs0).2.1.fallbackFile = fs0.fallbackFile) ∧
    ((env.primaryCreateOk = false ∨ env.primaryWriteOk = false) →
      env.secMakedirsOk = true → env.secOpenOk = true → env.secWriteOk = true →
      (listenPersist env fs0).2.2 = some Handle.fallback) ∧
    (∀ tmp, handlePath tmp Handle.fallback = "Documents/StudyBuddy/recording.wav") ∧
    ((env.primaryCreateOk = false ∨ env.primaryWriteOk = false) →
      (env.secMakedirsOk = false ∨ env.secOpenOk = false ∨ env.secWriteOk = false) →
      (listenPersist env fs0).2.2 = none ∧
      (listenPersist env fs0).1
        = (match env.memTranscribe with
            | Except.ok t => pyStrip t
            | Except.error _ => "")) := by
  obtain ⟨pc, pw, pr, sm, so, sw, mt, ft, fr⟩ := env
  cases pc <;> cases pw <;> cases pr <;> cases sm <;> cases so <;>
    cases sw <;> cases fr <;> cases mt <;> cases ft <;>
      simp_all [listenPersist, save_audio_to_wav, transcribeFileThenCleanup,
        transcribeDirect, removeHandle, handlePath]

/-- Witness for `tier_order` at concrete inputs. -/
theorem tier_order_witness :
    (listenPersist envPrimaryOk ⟨false, false⟩).2.2 = some Handle.primary ∧
    (listenPersist envFallbackOk ⟨false, false⟩).2.2 = some Handle.fallback := by
  exact ⟨((tier_order envPrimaryOk ⟨false, false⟩).1 rfl rfl).1,
    (tier_order envFallbackOk ⟨false, false⟩).2.1 (Or.inl rfl) rfl rfl rfl⟩

/-! ### Claim theorems: empty recording and response generation -/

/-- C9.  When the listening session captured zero audio blocks,
`listen` returns the empty string, raises nothing (the model is a total
function), and leaves the filesystem untouched; the caller in `run`
treats the empty string as a no-input turn. -/
theorem listen_no_blocks_empty (env : PersistEnv) (fs0 : FS) :
    listen [] env fs0 = ("", fs0) := rfl

/-- C10.  `generate_response` is total over collaborator failures (the
model is a total function mirroring the all-enclosing `try`/`except`):
whenever tokenization, generation or decoding raises, the fixed
fallback string is returned. -/
theorem generate_response_fallback (env : GenEnv) (ui : String)
    (dc : Option String) :
    (∀ msg, env.tokenize (mkPrompt ui dc) = Except.error msg →
      generate_response env ui dc = fallbackResponse) ∧
    (∀ toks msg, env.tokenize (mkPrompt ui dc) = Except.ok toks →
      env.generate toks = Except.error msg →
      generate_response env ui dc = fallbackResponse) ∧
    (∀ toks out msg, env.tokenize (mkPrompt ui dc) = Except.ok toks →
      env.generate toks = Except.ok out →
      env.decode out = Except.error msg →
      generate_response env ui dc = fallbackResponse) := by
  refine ⟨?_, ?_, ?_⟩
  · intro msg hmsg
    simp [generate_response, hmsg]
  · intro toks msg h1 h2
    simp [generate_response, h1, h2]
  · intro toks out msg h1 h2 h3
    simp [generate_response, h1, h2, h3]

/-- Collaborator environment whose tokenizer always raises. -/
def genEnvTokFail : GenEnv :=
  ⟨fun _ => Except.error "tok", fun _ => Except.ok [], fun _ => Except.ok ""⟩

/-- Witness for `generate_response_fallback` at a concrete input. -/
theorem generate_response_fallback_witness :
    generate_response genEnvTokFail "hi" none = fallbackResponse :=
  (generate_response_fallback genEnvTokFail "hi" none).1 "tok" rfl

end StudyBuddy
